import Mathlib

/-!
Shallow embedding of the NexaVid backend upload-relay path.

The repository contains three variants of the `POST /api/upload` handler:
* `src/index.js` — busboy direct-stream variant (negotiation timeout 60000 ms,
  transfer timeout 300000 ms, catch block mapping cancellation / ECONNABORTED
  to 504 and everything else to 500);
* `src/unnamed/part_000` — two documents: a legacy busboy variant with no
  axios timeouts and a catch block that always answers 500, and a
  multer disk-buffered variant with a `finally` block that unlinks the
  temporary file on every exit path;
* `src/unnamed/part_001` — multer in-memory variant with no axios timeouts
  and a catch block that always answers 500.

Outbound provider calls are modelled by an `AxiosOutcome` input per call
(success envelope, HTTP error with response, timeout abort, network error),
and each handler is a pure function from the request data plus those outcomes
to the HTTP response it sends and the trace of upstream calls it performs.
JavaScript string truthiness (`undefined` and `""` are falsy) is modelled by
`strTruthy`, and `x || y` by `jsOrS` / `jsOrN`.
-/

/-- JS truthiness of a possibly-absent string: `undefined` and `""` are falsy. -/
def strTruthy : Option String → Bool
  | none => false
  | some s => !s.isEmpty

/-- JS `x || y` where `x` is a possibly-absent string. -/
def jsOrS (x : Option String) (y : String) : String :=
  match x with
  | none => y
  | some s => if s.isEmpty then y else s

/-- JS `x || y` where `x` is a number (`0` is falsy). -/
def jsOrN (x : Nat) (y : Nat) : Nat :=
  if x = 0 then y else x

/-- Provider `file/ul` envelope result: `{ url }` (`result?.url` may be absent). -/
structure UlResult where
  url : Option String
  deriving Repr, DecidableEq

/-- Provider JSON envelope for the negotiation call `file/ul`
(`{status, msg, result}`, `src/index.js:294-309`). -/
structure UlEnvelope where
  status : Nat
  msg : Option String
  result : Option UlResult
  deriving Repr, DecidableEq

/-- Provider upload-transfer envelope result
(`result.id/name/url/size/content_type/sha256`, `src/index.js:351-367`).
`id` is optional because the guard tests `!uploadResponse.data.result?.id`. -/
structure UpResult where
  id : Option String
  name : String
  url : String
  size : Nat
  content_type : String
  sha256 : String
  deriving Repr, DecidableEq

/-- Provider JSON envelope for the upload transfer response. -/
structure UpEnvelope where
  status : Nat
  msg : Option String
  result : Option UpResult
  deriving Repr, DecidableEq

/-- Outcome of one axios call: HTTP 2xx with parsed body, non-2xx HTTP error
(axios throws with `error.response` carrying the status and the body `msg`),
timeout abort (`error.code === "ECONNABORTED"`), or a network-level error with
only a message. -/
inductive AxiosOutcome (α : Type) where
  | ok (data : α)
  | httpError (status : Nat) (msg : Option String)
  | timeout
  | netError (message : String)
  deriving Repr, DecidableEq

/-- The fields of a JS error value that the catch blocks inspect:
`error.message`, `error.code`, `axios.isCancel(error)`,
`error.response?.status` and `error.response?.data?.msg`. -/
structure JsError where
  message : String
  code : Option String
  isCancel : Bool
  respStatus : Option Nat
  respMsg : Option String
  deriving Repr, DecidableEq

/-- A plain `new Error(msg)` thrown inside the try block: no axios code,
no cancellation flag, no attached response. -/
def plainError (m : String) : JsError :=
  { message := m, code := none, isCancel := false, respStatus := none, respMsg := none }

/-- Translate an axios call outcome into either the parsed body or the thrown
JS error, as the `await axios...` expressions behave in the source. -/
def axiosE {α : Type} : AxiosOutcome α → Except JsError α
  | .ok d => .ok d
  | .httpError st m =>
      .error { message := "Request failed with status code " ++ toString st,
               code := none, isCancel := false, respStatus := some st, respMsg := m }
  | .timeout =>
      .error { message := "timeout exceeded", code := some "ECONNABORTED",
               isCancel := false, respStatus := none, respMsg := none }
  | .netError m =>
      .error { message := m, code := none, isCancel := false,
               respStatus := none, respMsg := none }

/-- The normalized success payload `data` object built by all three variants
(`src/index.js:359-367`, `src/unnamed/part_000:806-814`,
`src/unnamed/part_001:341-349`). -/
structure UploadData where
  fileId : String
  fileName : String
  streamUrl : String
  downloadUrl : String
  size : Nat
  contentType : String
  sha256 : String
  deriving Repr, DecidableEq

/-- Body of a JSON response from the upload endpoint: either the
`{success:true, message, data}` shape or `{success:false, message}`. -/
inductive RespBody where
  | success (message : String) (data : UploadData)
  | failure (message : String)
  deriving Repr, DecidableEq

/-- Whether a response body is the success shape. -/
def RespBody.isSuccess : RespBody → Bool
  | .success _ _ => true
  | .failure _ => false

/-- An HTTP response sent to the client: status code plus JSON body. -/
structure HttpResponse where
  status : Nat
  body : RespBody
  deriving Repr, DecidableEq

/-- One outbound call to the provider made while handling an upload request. -/
inductive UpstreamCall where
  | fileUl
  | uploadPost (url : String)
  | fileDl (linkId : String) (ticket : String)
  | listFolder
  deriving Repr, DecidableEq

/-- The destination URL the handler proceeds with after the negotiation guard
`initResponse.data.status !== 200 || !initResponse.data.result?.url`
(`src/index.js:303-309`): `some url` exactly when the guard does not throw. -/
def negotiatedUrl (e : UlEnvelope) : Option String :=
  match e.result with
  | none => none
  | some r =>
      match r.url with
      | none => none
      | some u => if e.status == 200 && !u.isEmpty then some u else none

/-- The provider result the handler proceeds with after the transfer guard
`uploadResponse.data.status !== 200 || !uploadResponse.data.result?.id`
(`src/index.js:341-349`): `some r` exactly when the guard does not throw. -/
def acceptedResult (e : UpEnvelope) : Option UpResult :=
  match e.result with
  | none => none
  | some r =>
      match r.id with
      | none => none
      | some i => if e.status == 200 && !i.isEmpty then some r else none

/-- Success payload construction shared by all three variants
(`fileId: result.id`, `fileName: result.name`,
`streamUrl: "https://streamtape.com/e/" + result.id`, `downloadUrl: result.url`,
`size: result.size`, `contentType: result.content_type`, `sha256: result.sha256`). -/
def mkUploadData (r : UpResult) : UploadData :=
  { fileId := r.id.getD ""
  , fileName := r.name
  , streamUrl := "https://streamtape.com/e/" ++ r.id.getD ""
  , downloadUrl := r.url
  , size := r.size
  , contentType := r.content_type
  , sha256 := r.sha256 }

/-- Catch block of the busboy stream variant (`src/index.js:369-394`):
cancellation → 504, `ECONNABORTED` → 504, anything else → 500 with
`Failed to upload video: ${error.response?.data?.msg || error.message}`. -/
def catchStream (e : JsError) : HttpResponse :=
  if e.isCancel then
    { status := 504, body := .failure "Upload cancelled by timeout." }
  else if e.code == some "ECONNABORTED" then
    { status := 504, body := .failure "Upload timed out after a long wait." }
  else
    { status := 500,
      body := .failure ("Failed to upload video: " ++ jsOrS e.respMsg e.message) }

/-- Catch block of the in-memory multer variant (`src/unnamed/part_001:351-362`):
always 500 with `Failed to upload video: ${error.response?.data?.msg || error.message}`. -/
def catchMemory (e : JsError) : HttpResponse :=
  { status := 500,
    body := .failure ("Failed to upload video: " ++ jsOrS e.respMsg e.message) }

/-- Catch block of the disk-buffered multer variant (`src/unnamed/part_000:816-838`):
cancellation or `ECONNABORTED` → 504; else if `error.response && error.response.status`
is truthy the provider HTTP status is surfaced; else 500. -/
def catchDisk (e : JsError) : HttpResponse :=
  if e.isCancel || e.code == some "ECONNABORTED" then
    { status := 504, body := .failure "Upload to Streamtape timed out." }
  else
    match e.respStatus with
    | some st =>
        if st == 0 then
          { status := 500, body := .failure ("Server error during upload: " ++ e.message) }
        else
          { status := st,
            body := .failure ("Streamtape API error: " ++ toString st ++ " - "
                              ++ jsOrS e.respMsg e.message) }
    | none =>
        { status := 500, body := .failure ("Server error during upload: " ++ e.message) }

/-- The shared try-block pipeline of an upload handler: run the negotiation
call, apply the envelope guard, run the transfer call against the negotiated
URL, apply its guard, and build the success response; thrown errors go to the
variant's catch block `onError`. Returns the response and the upstream calls. -/
def uploadPipeline (onError : JsError → HttpResponse)
    (neg : AxiosOutcome UlEnvelope) (tr : AxiosOutcome UpEnvelope) :
    HttpResponse × List UpstreamCall :=
  match axiosE neg with
  | .error e => (onError e, [UpstreamCall.fileUl])
  | .ok env =>
      match negotiatedUrl env with
      | none =>
          (onError (plainError (jsOrS env.msg "Failed to get upload URL from Streamtape.")),
           [UpstreamCall.fileUl])
      | some url =>
          match axiosE tr with
          | .error e => (onError e, [UpstreamCall.fileUl, UpstreamCall.uploadPost url])
          | .ok uenv =>
              match acceptedResult uenv with
              | none =>
                  (onError (plainError
                      (jsOrS uenv.msg "Upload failed or no file ID returned from Streamtape.")),
                   [UpstreamCall.fileUl, UpstreamCall.uploadPost url])
              | some r =>
                  ({ status := 200,
                     body := .success "Video uploaded successfully!" (mkUploadData r) },
                   [UpstreamCall.fileUl, UpstreamCall.uploadPost url])

/-- One part of the incoming multipart body: a file part (field name, client
filename, content bytes) or a plain form field. -/
inductive ReqPart where
  | filePart (fieldname : String) (filename : Option String) (content : List Nat)
  | fieldPart (fieldname : String) (value : String)
  deriving Repr, DecidableEq

/-- Whether a part is a file part under the accepted field name `videoFile`. -/
def isVideoFilePart : ReqPart → Bool
  | .filePart fn _ _ => fn == "videoFile"
  | .fieldPart _ _ => false

/-- Whether a part is a file part (under any field name). -/
def isFilePart : ReqPart → Bool
  | .filePart _ _ _ => true
  | .fieldPart _ _ => false

/-- Busboy parsing state of the stream variant: the captured file stream and
the captured filename (`src/index.js:247-248`). -/
structure BusboyState where
  fileStream : Option (List Nat)
  fileName : String
  deriving Repr, DecidableEq

/-- One busboy event of the stream variant (`src/index.js:250-276`): a file
part under `videoFile` is captured (`fileName = filename.filename || "uploaded_video"`),
any other file part is resumed and discarded, and form fields are ignored. -/
def busboyStep (st : BusboyState) (p : ReqPart) : BusboyState :=
  match p with
  | .filePart fn fname content =>
      if fn == "videoFile" then
        { fileStream := some content, fileName := jsOrS fname "uploaded_video" }
      else st
  | .fieldPart _ _ => st

/-- Busboy parse of the whole multipart body, starting from
`fileName = "unknown_file"` and no captured stream. -/
def busboyParse (parts : List ReqPart) : BusboyState :=
  parts.foldl busboyStep { fileStream := none, fileName := "unknown_file" }

/-- The busboy stream variant of `POST /api/upload` (`src/index.js:241-399`):
on `finish`, no captured file stream → 400 `"No file uploaded."` with no
upstream call; otherwise the negotiation/transfer pipeline runs with
`catchStream` as catch block. -/
def uploadStream (parts : List ReqPart) (neg : AxiosOutcome UlEnvelope)
    (tr : AxiosOutcome UpEnvelope) : HttpResponse × List UpstreamCall :=
  match (busboyParse parts).fileStream with
  | none => ({ status := 400, body := .failure "No file uploaded." }, [])
  | some _ => uploadPipeline catchStream neg tr

/-- The legacy busboy variant (`src/unnamed/part_000:240-397`): same pipeline
but every caught error answers 500 with
`Failed to upload video: ${error.response?.data?.msg || error.message}`. -/
def catchLegacyStream (e : JsError) : HttpResponse :=
  { status := 500,
    body := .failure ("Failed to upload video: " ++ jsOrS e.respMsg e.message) }

/-- The legacy busboy variant of `POST /api/upload` (`src/unnamed/part_000:240-397`). -/
def uploadLegacyStream (parts : List ReqPart) (neg : AxiosOutcome UlEnvelope)
    (tr : AxiosOutcome UpEnvelope) : HttpResponse × List UpstreamCall :=
  match (busboyParse parts).fileStream with
  | none => ({ status := 400, body := .failure "No file uploaded." }, [])
  | some _ => uploadPipeline catchLegacyStream neg tr

/-- The `req.file` object produced by multer when it accepts a file:
the on-disk path (disk storage; unused by memory storage), the client's
original filename, and the content bytes. -/
structure MulterFile where
  path : String
  originalname : String
  content : List Nat
  deriving Repr, DecidableEq

/-- Error raised by the multer middleware before the route handler runs. -/
inductive MulterError where
  | unexpectedField (field : String)
  deriving Repr, DecidableEq

/-- Processing loop of `multer(...).single(field)` over the multipart parts.
Per multer's `single()` contract, at most one file is accepted and only under
`field`: a file part under any other field name, or a second file part under
`field`, aborts the request with `LIMIT_UNEXPECTED_FILE` (an "Unexpected
field" `MulterError`); plain form fields are consumed without effect. -/
def multerSingleAux (field : String) (tmpPath : String) (acc : Option MulterFile) :
    List ReqPart → Except MulterError (Option MulterFile)
  | [] => .ok acc
  | .fieldPart _ _ :: rest => multerSingleAux field tmpPath acc rest
  | .filePart fn fname content :: rest =>
      if fn == field then
        match acc with
        | some _ => .error (.unexpectedField fn)
        | none =>
            multerSingleAux field tmpPath
              (some { path := tmpPath, originalname := fname.getD "", content := content }) rest
      else .error (.unexpectedField fn)

/-- `multer(...).single(field)` applied to a multipart body: yields `req.file`
(present or absent) or a middleware error. `tmpPath` stands for the unique
`/tmp` destination the disk storage engine generates (`src/unnamed/part_000:694-716`);
it is irrelevant for memory storage. -/
def multerSingle (field : String) (tmpPath : String) (parts : List ReqPart) :
    Except MulterError (Option MulterFile) :=
  multerSingleAux field tmpPath none parts

/-- The in-memory multer variant of `POST /api/upload`
(`src/unnamed/part_001:255-363`): `req.file` absent → 400 `"No file uploaded."`
with no upstream call, else the pipeline with `catchMemory`. -/
def uploadMemory (file : Option MulterFile) (neg : AxiosOutcome UlEnvelope)
    (tr : AxiosOutcome UpEnvelope) : HttpResponse × List UpstreamCall :=
  match file with
  | none => ({ status := 400, body := .failure "No file uploaded." }, [])
  | some _ => uploadPipeline catchMemory neg tr

/-- Full observable outcome of the disk-buffered variant: the client response,
the upstream call trace, whether the `finally` block attempted the unlink,
whether the temporary file still exists afterwards, and the cleanup log lines. -/
structure DiskResult where
  response : HttpResponse
  calls : List UpstreamCall
  unlinkAttempted : Bool
  tempExistsAfter : Bool
  logs : List String
  deriving Repr, DecidableEq

/-- The disk-buffered multer variant of `POST /api/upload`
(`src/unnamed/part_000:721-853`): `req.file` absent → 400
`"No video file provided."` before any temporary file exists; otherwise the
pipeline runs with `catchDisk` and the `finally` block
(`src/unnamed/part_000:839-852`) unlinks `tempFilePath` whenever it is truthy,
logging success or failure of the deletion and never altering the response.
`unlinkFails` models whether `fsPromises.unlink` rejects. -/
def uploadDisk (file : Option MulterFile) (neg : AxiosOutcome UlEnvelope)
    (tr : AxiosOutcome UpEnvelope) (unlinkFails : Bool) : DiskResult :=
  match file with
  | none =>
      { response := { status := 400, body := .failure "No video file provided." }
      , calls := [], unlinkAttempted := false, tempExistsAfter := false, logs := [] }
  | some f =>
      let body := uploadPipeline catchDisk neg tr
      if f.path.isEmpty then
        { response := body.fst, calls := body.snd
        , unlinkAttempted := false, tempExistsAfter := true, logs := [] }
      else if unlinkFails then
        { response := body.fst, calls := body.snd
        , unlinkAttempted := true, tempExistsAfter := true
        , logs := ["Error deleting temporary file " ++ f.path] }
      else
        { response := body.fst, calls := body.snd
        , unlinkAttempted := true, tempExistsAfter := false
        , logs := ["Temporary file deleted: " ++ f.path] }

/-- The full disk-buffered endpoint: the multer middleware runs first and may
abort with a middleware error before the route handler is entered
(`src/unnamed/part_000:721`). -/
def uploadDiskEndpoint (tmpPath : String) (parts : List ReqPart)
    (neg : AxiosOutcome UlEnvelope) (tr : AxiosOutcome UpEnvelope)
    (unlinkFails : Bool) : Except MulterError DiskResult :=
  (multerSingle "videoFile" tmpPath parts).map (fun file => uploadDisk file neg tr unlinkFails)

/-- The full in-memory endpoint: multer middleware then handler
(`src/unnamed/part_001:255`). -/
def uploadMemoryEndpoint (parts : List ReqPart) (neg : AxiosOutcome UlEnvelope)
    (tr : AxiosOutcome UpEnvelope) : Except MulterError (HttpResponse × List UpstreamCall) :=
  (multerSingle "videoFile" "" parts).map (fun file => uploadMemory file neg tr)

/-- The slice of an axios request config the spec's timeout discipline is
about: the configured timeout in milliseconds, absent when the call sets none
(axios then never aborts the request by timeout). -/
structure AxiosConfig where
  timeout : Option Nat
  deriving Repr, DecidableEq

/-- Negotiation call config of the stream variant (`src/index.js:300`). -/
def streamUlConfig : AxiosConfig := { timeout := some 60000 }

/-- Transfer call config of the stream variant (`src/index.js:328`). -/
def streamUploadConfig : AxiosConfig := { timeout := some 300000 }

/-- Negotiation call config of the legacy busboy variant
(`src/unnamed/part_000:299-305`, no timeout). -/
def legacyStreamUlConfig : AxiosConfig := { timeout := none }

/-- Transfer call config of the legacy busboy variant
(`src/unnamed/part_000:330-348`, no timeout). -/
def legacyStreamUploadConfig : AxiosConfig := { timeout := none }

/-- Negotiation call config of the disk variant (`src/unnamed/part_000:741`). -/
def diskUlConfig : AxiosConfig := { timeout := some 60000 }

/-- Transfer call config of the disk variant (`src/unnamed/part_000:778`). -/
def diskUploadConfig : AxiosConfig := { timeout := some 600000 }

/-- Transfer call config of the in-memory variant
(`src/unnamed/part_001:307-312`, no timeout). -/
def memoryUploadConfig : AxiosConfig := { timeout := none }

/-- Whether the negotiation step failed: non-2xx HTTP error, timeout, network
error, or a 2xx envelope that the guard rejects (status ≠ 200 or no result URL). -/
def negotiationFailed (neg : AxiosOutcome UlEnvelope) : Bool :=
  match neg with
  | .ok env => (negotiatedUrl env).isNone
  | .httpError _ _ => true
  | .timeout => true
  | .netError _ => true

/-- Provider `file/dl` envelope result (`result.url`, `result.name`). -/
structure DlResult where
  url : Option String
  name : String
  deriving Repr, DecidableEq

/-- Provider JSON envelope for the `file/dl` call. -/
structure DlEnvelope where
  status : Nat
  msg : Option String
  result : Option DlResult
  deriving Repr, DecidableEq

/-- Body of a response from `GET /api/videos/:linkId/download-link`. -/
inductive DlBody where
  | success (downloadUrl : String) (filename : String)
  | failure (message : String)
  deriving Repr, DecidableEq

/-- Response of the download-link endpoint. -/
structure DlResponse where
  status : Nat
  body : DlBody
  deriving Repr, DecidableEq

/-- `GET /api/videos/:linkId/download-link` (`src/index.js:196-237`): a missing
or empty `ticket` query parameter is rejected with 400 before any provider
call; otherwise `file/dl` is called and its envelope mapped. -/
def downloadLink (linkId : String) (ticket : Option String)
    (out : AxiosOutcome DlEnvelope) : DlResponse × List UpstreamCall :=
  if !strTruthy ticket then
    ({ status := 400, body := .failure "Download ticket is required." }, [])
  else
    let calls := [UpstreamCall.fileDl linkId (ticket.getD "")]
    match out with
    | .ok env =>
        match env.result with
        | some r =>
            match r.url with
            | some u =>
                if env.status == 200 && !u.isEmpty then
                  ({ status := 200, body := .success u r.name }, calls)
                else
                  ({ status := jsOrN env.status 500,
                     body := .failure (jsOrS env.msg "Failed to get download link.") }, calls)
            | none =>
                ({ status := jsOrN env.status 500,
                   body := .failure (jsOrS env.msg "Failed to get download link.") }, calls)
        | none =>
            ({ status := jsOrN env.status 500,
               body := .failure (jsOrS env.msg "Failed to get download link.") }, calls)
    | .httpError _ _ =>
        ({ status := 500, body := .failure "Server error while fetching download link." }, calls)
    | .timeout =>
        ({ status := 500, body := .failure "Server error while fetching download link." }, calls)
    | .netError _ =>
        ({ status := 500, body := .failure "Server error while fetching download link." }, calls)

/-- One file object in the provider's `file/listfolder` result list; the
filter reads `file.linkid` (truthiness) and `file.convert`. -/
structure FolderFile where
  name : String
  linkid : Option String
  convert : String
  size : Nat
  deriving Repr, DecidableEq

/-- Provider `file/listfolder` envelope result (`result.files`; an empty
array is still truthy in JS, so presence is what matters). -/
structure ListResult where
  files : Option (List FolderFile)
  deriving Repr, DecidableEq

/-- Provider JSON envelope for the `file/listfolder` call. -/
structure ListEnvelope where
  status : Nat
  msg : Option String
  result : Option ListResult
  deriving Repr, DecidableEq

/-- Body of a response from `GET /api/videos`. -/
inductive VideosBody where
  | success (videos : List FolderFile)
  | failure (message : String)
  deriving Repr, DecidableEq

/-- Response of the videos-listing endpoint. -/
structure VideosResponse where
  status : Nat
  body : VideosBody
  deriving Repr, DecidableEq

/-- The filter predicate of `GET /api/videos` (`src/index.js:113-115`):
`file.linkid && file.convert === "converted"`. -/
def keepVideo (f : FolderFile) : Bool :=
  strTruthy f.linkid && f.convert == "converted"

/-- `GET /api/videos` (`src/index.js:103-130`): on a success envelope with a
files list, answer the filtered list; otherwise surface
`response.data.status || 500` with `response.data.msg || default`, and 500 on
any thrown error. -/
def listVideos (out : AxiosOutcome ListEnvelope) : VideosResponse :=
  match out with
  | .ok env =>
      match env.result with
      | some r =>
          match r.files with
          | some files =>
              if env.status == 200 then
                { status := 200, body := .success (files.filter keepVideo) }
              else
                { status := jsOrN env.status 500,
                  body := .failure (jsOrS env.msg "Failed to fetch videos.") }
          | none =>
              { status := jsOrN env.status 500,
                body := .failure (jsOrS env.msg "Failed to fetch videos.") }
      | none =>
          { status := jsOrN env.status 500,
            body := .failure (jsOrS env.msg "Failed to fetch videos.") }
  | .httpError _ _ =>
      { status := 500, body := .failure "Server error while fetching videos." }
  | .timeout =>
      { status := 500, body := .failure "Server error while fetching videos." }
  | .netError _ =>
      { status := 500, body := .failure "Server error while fetching videos." }

/-! ### Helper lemmas -/

/-- Every catch-block response of the stream variant is a failure envelope. -/
theorem catchStream_body_failure (e : JsError) :
    ∃ m, (catchStream e).body = RespBody.failure m := by
  unfold catchStream
  split
  · exact ⟨_, rfl⟩
  · split <;> exact ⟨_, rfl⟩

/-- Every catch-block response of the disk variant is a failure envelope. -/
theorem catchDisk_body_failure (e : JsError) :
    ∃ m, (catchDisk e).body = RespBody.failure m := by
  unfold catchDisk
  split
  · exact ⟨_, rfl⟩
  · split
    · split <;> exact ⟨_, rfl⟩
    · exact ⟨_, rfl⟩

/-- Every catch-block response of the in-memory variant is a failure envelope. -/
theorem catchMemory_body_failure (e : JsError) :
    ∃ m, (catchMemory e).body = RespBody.failure m :=
  ⟨_, rfl⟩

/-- A part that is not a `videoFile` file part leaves the busboy state unchanged
(`file.resume()` for foreign file parts, no-op for form fields). -/
theorem busboyStep_skip (st : BusboyState) (p : ReqPart)
    (h : isVideoFilePart p = false) : busboyStep st p = st := by
  cases p with
  | filePart fn fname c =>
      simp only [isVideoFilePart] at h
      simp [busboyStep, h]
  | fieldPart _ _ => rfl

/-- Busboy parsing only depends on the `videoFile` file parts. -/
theorem foldl_busboyStep_filter (l : List ReqPart) (st : BusboyState) :
    (l.filter isVideoFilePart).foldl busboyStep st = l.foldl busboyStep st := by
  induction l generalizing st with
  | nil => rfl
  | cons p l ih =>
      cases hp : isVideoFilePart p with
      | true => simp [List.filter_cons, hp, List.foldl_cons, ih]
      | false => simp [List.filter_cons, hp, List.foldl_cons, ih, busboyStep_skip st p hp]

/-- Busboy parsing of a body with no file parts captures no stream. -/
theorem busboyParse_no_file (parts : List ReqPart)
    (h : ∀ p ∈ parts, isFilePart p = false) :
    (busboyParse parts).fileStream = none := by
  unfold busboyParse
  have aux : ∀ (l : List ReqPart) (st : BusboyState),
      (∀ p ∈ l, isFilePart p = false) → l.foldl busboyStep st = st := by
    intro l
    induction l with
    | nil => intro st _; rfl
    | cons p l ih =>
        intro st hl
        have hp : isFilePart p = false := hl p (List.mem_cons_self p l)
        have hstep : busboyStep st p = st := by
          cases p with
          | filePart fn fname c => simp [isFilePart] at hp
          | fieldPart _ _ => rfl
        rw [List.foldl_cons, hstep]
        exact ih st (fun q hq => hl q (List.mem_cons_of_mem p hq))
  rw [aux parts _ h]

/-- The multer middleware over a body with no file parts accepts with no file. -/
theorem multerSingle_no_file (field tmpPath : String) (parts : List ReqPart)
    (h : ∀ p ∈ parts, isFilePart p = false) :
    multerSingle field tmpPath parts = Except.ok none := by
  unfold multerSingle
  have aux : ∀ (l : List ReqPart) (acc : Option MulterFile),
      (∀ p ∈ l, isFilePart p = false) →
      multerSingleAux field tmpPath acc l = Except.ok acc := by
    intro l
    induction l with
    | nil => intro acc _; rfl
    | cons p l ih =>
        intro acc hl
        cases p with
        | filePart fn fname c =>
            have := hl _ (List.mem_cons_self _ l)
            simp [isFilePart] at this
        | fieldPart fn v =>
            rw [multerSingleAux]
            exact ih acc (fun q hq => hl q (List.mem_cons_of_mem _ hq))
  exact aux parts none h

/-- When the negotiation step fails, the shared pipeline never performs the
transfer POST, whatever the variant's catch block is. -/
theorem uploadPipeline_no_post (onError : JsError → HttpResponse)
    (neg : AxiosOutcome UlEnvelope) (tr : AxiosOutcome UpEnvelope) (u : String)
    (h : negotiationFailed neg = true) :
    UpstreamCall.uploadPost u ∉ (uploadPipeline onError neg tr).snd := by
  cases neg with
  | ok env =>
      simp only [negotiationFailed] at h
      cases hn : negotiatedUrl env with
      | none => simp [uploadPipeline, axiosE, hn]
      | some url => rw [hn] at h; simp at h
  | httpError st m => simp [uploadPipeline, axiosE]
  | timeout => simp [uploadPipeline, axiosE]
  | netError m => simp [uploadPipeline, axiosE]

/-! ### Claim theorems -/

/-- Claim C1: in the disk-buffered variant, whenever a temporary on-disk
artifact was created (`req.file` present with its `/tmp` path), the `finally`
block attempts its deletion on every exit path — provider success, provider
error envelope, negotiation failure, timeout, network failure — the client
response is the same whether or not the deletion fails, a successful deletion
leaves no artifact behind, and a failed deletion is only logged. -/
theorem temp_artifact_reaped (f : MulterFile) (neg : AxiosOutcome UlEnvelope)
    (tr : AxiosOutcome UpEnvelope) (unlinkFails : Bool)
    (h : f.path.isEmpty = false) :
    (uploadDisk (some f) neg tr unlinkFails).unlinkAttempted = true
    ∧ (uploadDisk (some f) neg tr unlinkFails).response
        = (uploadDisk (some f) neg tr false).response
    ∧ (unlinkFails = false →
        (uploadDisk (some f) neg tr unlinkFails).tempExistsAfter = false)
    ∧ (unlinkFails = true →
        (uploadDisk (some f) neg tr unlinkFails).logs
          = ["Error deleting temporary file " ++ f.path]) := by
  cases unlinkFails <;> simp [uploadDisk, h]

/-- Witness for C1 at a concrete request: negotiation succeeds, the transfer
times out, and the unlink itself fails. -/
theorem temp_artifact_reaped_witness :
    (uploadDisk (some { path := "/tmp/videoFile-7.mp4", originalname := "clip.mp4", content := [9, 8] })
        (AxiosOutcome.ok { status := 200, msg := some "OK",
                           result := some { url := some "https://upload.example/x" } })
        AxiosOutcome.timeout true).unlinkAttempted = true
    ∧ (uploadDisk (some { path := "/tmp/videoFile-7.mp4", originalname := "clip.mp4", content := [9, 8] })
        (AxiosOutcome.ok { status := 200, msg := some "OK",
                           result := some { url := some "https://upload.example/x" } })
        AxiosOutcome.timeout true).response
        = (uploadDisk (some { path := "/tmp/videoFile-7.mp4", originalname := "clip.mp4", content := [9, 8] })
            (AxiosOutcome.ok { status := 200, msg := some "OK",
                               result := some { url := some "https://upload.example/x" } })
            AxiosOutcome.timeout false).response
    ∧ (true = false →
        (uploadDisk (some { path := "/tmp/videoFile-7.mp4", originalname := "clip.mp4", content := [9, 8] })
            (AxiosOutcome.ok { status := 200, msg := some "OK",
                               result := some { url := some "https://upload.example/x" } })
            AxiosOutcome.timeout true).tempExistsAfter = false)
    ∧ (true = true →
        (uploadDisk (some { path := "/tmp/videoFile-7.mp4", originalname := "clip.mp4", content := [9, 8] })
            (AxiosOutcome.ok { status := 200, msg := some "OK",
                               result := some { url := some "https://upload.example/x" } })
            AxiosOutcome.timeout true).logs
          = ["Error deleting temporary file " ++ "/tmp/videoFile-7.mp4"]) :=
  temp_artifact_reaped
    { path := "/tmp/videoFile-7.mp4", originalname := "clip.mp4", content := [9, 8] }
    (AxiosOutcome.ok { status := 200, msg := some "OK",
                       result := some { url := some "https://upload.example/x" } })
    AxiosOutcome.timeout true (by decide)

/-- Claim C2: a multipart body with zero file parts yields a 400
`success:false` envelope and no provider call in every variant of
`POST /api/upload` (busboy stream, legacy busboy, disk-buffered, in-memory). -/
theorem no_file_yields_400_no_calls (parts : List ReqPart) (tmpPath : String)
    (neg : AxiosOutcome UlEnvelope) (tr : AxiosOutcome UpEnvelope) (unlinkFails : Bool)
    (h : ∀ p ∈ parts, isFilePart p = false) :
    uploadStream parts neg tr
      = ({ status := 400, body := .failure "No file uploaded." }, [])
    ∧ uploadLegacyStream parts neg tr
      = ({ status := 400, body := .failure "No file uploaded." }, [])
    ∧ uploadDiskEndpoint tmpPath parts neg tr unlinkFails
      = Except.ok { response := { status := 400, body := .failure "No video file provided." }
                  , calls := [], unlinkAttempted := false, tempExistsAfter := false, logs := [] }
    ∧ uploadMemoryEndpoint parts neg tr
      = Except.ok ({ status := 400, body := .failure "No file uploaded." }, []) := by
  have hb := busboyParse_no_file parts h
  have hm1 := multerSingle_no_file "videoFile" tmpPath parts h
  have hm2 := multerSingle_no_file "videoFile" "" parts h
  refine ⟨?_, ?_, ?_, ?_⟩
  · simp [uploadStream, hb]
  · simp [uploadLegacyStream, hb]
  · simp [uploadDiskEndpoint, hm1, uploadDisk, Except.map]
  · simp [uploadMemoryEndpoint, hm2, uploadMemory, Except.map]

/-- Witness for C2 at a concrete body holding only a form field. -/
theorem no_file_yields_400_no_calls_witness :
    uploadStream [ReqPart.fieldPart "title" "my clip"]
        (AxiosOutcome.ok { status := 200, msg := none,
                           result := some { url := some "https://upload.example/x" } })
        AxiosOutcome.timeout
      = ({ status := 400, body := .failure "No file uploaded." }, [])
    ∧ uploadLegacyStream [ReqPart.fieldPart "title" "my clip"]
        (AxiosOutcome.ok { status := 200, msg := none,
                           result := some { url := some "https://upload.example/x" } })
        AxiosOutcome.timeout
      = ({ status := 400, body := .failure "No file uploaded." }, [])
    ∧ uploadDiskEndpoint "/tmp/videoFile-1.mp4" [ReqPart.fieldPart "title" "my clip"]
        (AxiosOutcome.ok { status := 200, msg := none,
                           result := some { url := some "https://upload.example/x" } })
        AxiosOutcome.timeout false
      = Except.ok { response := { status := 400, body := .failure "No video file provided." }
                  , calls := [], unlinkAttempted := false, tempExistsAfter := false, logs := [] }
    ∧ uploadMemoryEndpoint [ReqPart.fieldPart "title" "my clip"]
        (AxiosOutcome.ok { status := 200, msg := none,
                           result := some { url := some "https://upload.example/x" } })
        AxiosOutcome.timeout
      = Except.ok ({ status := 400, body := .failure "No file uploaded." }, []) :=
  no_file_yields_400_no_calls [ReqPart.fieldPart "title" "my clip"] "/tmp/videoFile-1.mp4"
    (AxiosOutcome.ok { status := 200, msg := none,
                       result := some { url := some "https://upload.example/x" } })
    AxiosOutcome.timeout false (by decide)

/-- Claim C3: whenever the negotiation step fails — non-200 envelope status,
missing result URL, timeout, or network error — no variant of the handler
performs the transfer POST to any destination URL. -/
theorem negotiation_failure_blocks_relay (parts : List ReqPart)
    (file : Option MulterFile) (neg : AxiosOutcome UlEnvelope)
    (tr : AxiosOutcome UpEnvelope) (unlinkFails : Bool) (u : String)
    (h : negotiationFailed neg = true) :
    UpstreamCall.uploadPost u ∉ (uploadStream parts neg tr).snd
    ∧ UpstreamCall.uploadPost u ∉ (uploadLegacyStream parts neg tr).snd
    ∧ UpstreamCall.uploadPost u ∉ (uploadMemory file neg tr).snd
    ∧ UpstreamCall.uploadPost u ∉ (uploadDisk file neg tr unlinkFails).calls := by
  refine ⟨?_, ?_, ?_, ?_⟩
  · unfold uploadStream
    cases (busboyParse parts).fileStream with
    | none => simp
    | some _ => exact uploadPipeline_no_post catchStream neg tr u h
  · unfold uploadLegacyStream
    cases (busboyParse parts).fileStream with
    | none => simp
    | some _ => exact uploadPipeline_no_post catchLegacyStream neg tr u h
  · unfold uploadMemory
    cases file with
    | none => simp
    | some _ => exact uploadPipeline_no_post catchMemory neg tr u h
  · unfold uploadDisk
    cases file with
    | none => simp
    | some f =>
        have hp := uploadPipeline_no_post catchDisk neg tr u h
        cases hpath : f.path.isEmpty <;> cases unlinkFails <;> simpa [hpath] using hp

/-- Witness for C3: negotiation answers a 200 HTTP response whose envelope
status is 404, so the guard rejects it. -/
theorem negotiation_failure_blocks_relay_witness :
    UpstreamCall.uploadPost "https://upload.example/x"
      ∉ (uploadStream [ReqPart.filePart "videoFile" (some "clip.mp4") [1]]
          (AxiosOutcome.ok { status := 404, msg := some "folder not found", result := none })
          AxiosOutcome.timeout).snd
    ∧ UpstreamCall.uploadPost "https://upload.example/x"
      ∉ (uploadLegacyStream [ReqPart.filePart "videoFile" (some "clip.mp4") [1]]
          (AxiosOutcome.ok { status := 404, msg := some "folder not found", result := none })
          AxiosOutcome.timeout).snd
    ∧ UpstreamCall.uploadPost "https://upload.example/x"
      ∉ (uploadMemory (some { path := "", originalname := "clip.mp4", content := [1] })
          (AxiosOutcome.ok { status := 404, msg := some "folder not found", result := none })
          AxiosOutcome.timeout).snd
    ∧ UpstreamCall.uploadPost "https://upload.example/x"
      ∉ (uploadDisk (some { path := "/tmp/videoFile-1.mp4", originalname := "clip.mp4", content := [1] })
          (AxiosOutcome.ok { status := 404, msg := some "folder not found", result := none })
          AxiosOutcome.timeout false).calls :=
  negotiation_failure_blocks_relay [ReqPart.filePart "videoFile" (some "clip.mp4") [1]]
    (some { path := "/tmp/videoFile-1.mp4", originalname := "clip.mp4", content := [1] })
    (AxiosOutcome.ok { status := 404, msg := some "folder not found", result := none })
    AxiosOutcome.timeout false "https://upload.example/x" (by decide)

/-- Claim C4: when the relay transfer is aborted by the configured long
timeout (axios `ECONNABORTED`), the client receives 504, not 500, in both
variants that configure a transfer timeout (stream: 300000 ms, disk-buffered:
600000 ms); the legacy busboy and in-memory variants configure no transfer
timeout at all, so no transfer is ever aborted by a timeout bound there. -/
theorem relay_timeout_maps_to_504 (parts : List ReqPart) (bs : List Nat)
    (env : UlEnvelope) (url : String) (f : MulterFile) (unlinkFails : Bool)
    (hbs : (busboyParse parts).fileStream = some bs)
    (hurl : negotiatedUrl env = some url) :
    (uploadStream parts (.ok env) AxiosOutcome.timeout).fst
      = { status := 504, body := .failure "Upload timed out after a long wait." }
    ∧ (uploadDisk (some f) (.ok env) AxiosOutcome.timeout unlinkFails).response
      = { status := 504, body := .failure "Upload to Streamtape timed out." }
    ∧ streamUploadConfig.timeout = some 300000
    ∧ diskUploadConfig.timeout = some 600000
    ∧ legacyStreamUploadConfig.timeout = none
    ∧ memoryUploadConfig.timeout = none := by
  refine ⟨?_, ?_, rfl, rfl, rfl, rfl⟩
  · simp [uploadStream, hbs, uploadPipeline, axiosE, hurl, catchStream]
  · cases hp : f.path.isEmpty <;> cases unlinkFails <;>
      simp [uploadDisk, hp, uploadPipeline, axiosE, hurl, catchDisk]

/-- Witness for C4 at a concrete request whose transfer aborts by timeout. -/
theorem relay_timeout_maps_to_504_witness :
    (uploadStream [ReqPart.filePart "videoFile" (some "clip.mp4") [1, 2, 3]]
        (AxiosOutcome.ok { status := 200, msg := none,
                           result := some { url := some "https://upload.example/x" } })
        AxiosOutcome.timeout).fst
      = { status := 504, body := .failure "Upload timed out after a long wait." }
    ∧ (uploadDisk (some { path := "/tmp/videoFile-1.mp4", originalname := "clip.mp4", content := [1, 2, 3] })
        (AxiosOutcome.ok { status := 200, msg := none,
                           result := some { url := some "https://upload.example/x" } })
        AxiosOutcome.timeout false).response
      = { status := 504, body := .failure "Upload to Streamtape timed out." }
    ∧ streamUploadConfig.timeout = some 300000
    ∧ diskUploadConfig.timeout = some 600000
    ∧ legacyStreamUploadConfig.timeout = none
    ∧ memoryUploadConfig.timeout = none :=
  relay_timeout_maps_to_504 [ReqPart.filePart "videoFile" (some "clip.mp4") [1, 2, 3]] [1, 2, 3]
    { status := 200, msg := none, result := some { url := some "https://upload.example/x" } }
    "https://upload.example/x"
    { path := "/tmp/videoFile-1.mp4", originalname := "clip.mp4", content := [1, 2, 3] }
    false (by decide) (by decide)

/-- Claim C5: every success response of the stream variant satisfies
`data.streamUrl = "https://streamtape.com/e/" + data.fileId`, and its
`fileName` and `downloadUrl` are the `name` and `url` echoed in the
provider's accepted transfer envelope. -/
theorem success_payload_fields (parts : List ReqPart) (neg : AxiosOutcome UlEnvelope)
    (tr : AxiosOutcome UpEnvelope) (m : String) (d : UploadData)
    (h : (uploadStream parts neg tr).fst.body = RespBody.success m d) :
    d.streamUrl = "https://streamtape.com/e/" ++ d.fileId
    ∧ ∃ uenv r, tr = AxiosOutcome.ok uenv ∧ acceptedResult uenv = some r
        ∧ d.fileName = r.name ∧ d.downloadUrl = r.url := by
  unfold uploadStream at h
  cases hbs : (busboyParse parts).fileStream with
  | none => rw [hbs] at h; simp at h
  | some bs =>
      rw [hbs] at h
      unfold uploadPipeline at h
      cases neg with
      | httpError st msg =>
          obtain ⟨m', hm'⟩ := catchStream_body_failure
            { message := "Request failed with status code " ++ toString st,
              code := none, isCancel := false, respStatus := some st, respMsg := msg }
          simp only [axiosE] at h
          rw [hm'] at h
          simp at h
      | timeout =>
          obtain ⟨m', hm'⟩ := catchStream_body_failure
            { message := "timeout exceeded", code := some "ECONNABORTED",
              isCancel := false, respStatus := none, respMsg := none }
          simp only [axiosE] at h
          rw [hm'] at h
          simp at h
      | netError msg =>
          obtain ⟨m', hm'⟩ := catchStream_body_failure
            { message := msg, code := none, isCancel := false,
              respStatus := none, respMsg := none }
          simp only [axiosE] at h
          rw [hm'] at h
          simp at h
      | ok env =>
          simp only [axiosE] at h
          cases hn : negotiatedUrl env with
          | none =>
              rw [hn] at h
              obtain ⟨m', hm'⟩ := catchStream_body_failure
                (plainError (jsOrS env.msg "Failed to get upload URL from Streamtape."))
              simp only [hm'] at h
              simp at h
          | some url =>
              rw [hn] at h
              cases tr with
              | httpError st msg =>
                  obtain ⟨m', hm'⟩ := catchStream_body_failure
                    { message := "Request failed with status code " ++ toString st,
                      code := none, isCancel := false, respStatus := some st, respMsg := msg }
                  simp only [axiosE] at h
                  rw [hm'] at h
                  simp at h
              | timeout =>
                  obtain ⟨m', hm'⟩ := catchStream_body_failure
                    { message := "timeout exceeded", code := some "ECONNABORTED",
                      isCancel := false, respStatus := none, respMsg := none }
                  simp only [axiosE] at h
                  rw [hm'] at h
                  simp at h
              | netError msg =>
                  obtain ⟨m', hm'⟩ := catchStream_body_failure
                    { message := msg, code := none, isCancel := false,
                      respStatus := none, respMsg := none }
                  simp only [axiosE] at h
                  rw [hm'] at h
                  simp at h
              | ok uenv =>
                  simp only [axiosE] at h
                  cases hr : acceptedResult uenv with
                  | none =>
                      rw [hr] at h
                      obtain ⟨m', hm'⟩ := catchStream_body_failure
                        (plainError (jsOrS uenv.msg "Upload failed or no file ID returned from Streamtape."))
                      simp only [hm'] at h
                      simp at h
                  | some r =>
                      rw [hr] at h
                      simp only [RespBody.success.injEq] at h
                      refine ⟨?_, uenv, r, rfl, hr, ?_, ?_⟩
                      · rw [← h.2]; rfl
                      · rw [← h.2]; rfl
                      · rw [← h.2]; rfl

/-- Witness for C5 on a concrete successful upload of `clip.mp4`. -/
theorem success_payload_fields_witness :
    (uploadStream [ReqPart.filePart "videoFile" (some "clip.mp4") [0, 1, 2, 3, 4, 5, 6, 7, 8, 9]]
        (AxiosOutcome.ok { status := 200, msg := none,
                           result := some { url := some "https://upload.example/x" } })
        (AxiosOutcome.ok { status := 200, msg := none,
                           result := some { id := some "abc123", name := "clip.mp4",
                                            url := "https://streamtape.com/v/abc123/clip.mp4",
                                            size := 10, content_type := "video/mp4",
                                            sha256 := "deadbeef" } })).fst.body
      = RespBody.success "Video uploaded successfully!"
          (mkUploadData { id := some "abc123", name := "clip.mp4",
                          url := "https://streamtape.com/v/abc123/clip.mp4",
                          size := 10, content_type := "video/mp4", sha256 := "deadbeef" })
    ∧ ((mkUploadData { id := some "abc123", name := "clip.mp4",
                       url := "https://streamtape.com/v/abc123/clip.mp4",
                       size := 10, content_type := "video/mp4", sha256 := "deadbeef" }).streamUrl
        = "https://streamtape.com/e/"
          ++ (mkUploadData { id := some "abc123", name := "clip.mp4",
                             url := "https://streamtape.com/v/abc123/clip.mp4",
                             size := 10, content_type := "video/mp4", sha256 := "deadbeef" }).fileId
      ∧ ∃ uenv r,
          (AxiosOutcome.ok { status := 200, msg := none,
                             result := some { id := some "abc123", name := "clip.mp4",
                                              url := "https://streamtape.com/v/abc123/clip.mp4",
                                              size := 10, content_type := "video/mp4",
                                              sha256 := "deadbeef" } } : AxiosOutcome UpEnvelope)
            = AxiosOutcome.ok uenv
          ∧ acceptedResult uenv = some r
          ∧ (mkUploadData { id := some "abc123", name := "clip.mp4",
                            url := "https://streamtape.com/v/abc123/clip.mp4",
                            size := 10, content_type := "video/mp4", sha256 := "deadbeef" }).fileName
              = r.name
          ∧ (mkUploadData { id := some "abc123", name := "clip.mp4",
                            url := "https://streamtape.com/v/abc123/clip.mp4",
                            size := 10, content_type := "video/mp4", sha256 := "deadbeef" }).downloadUrl
              = r.url) :=
  ⟨by decide,
   success_payload_fields
     [ReqPart.filePart "videoFile" (some "clip.mp4") [0, 1, 2, 3, 4, 5, 6, 7, 8, 9]]
     (AxiosOutcome.ok { status := 200, msg := none,
                        result := some { url := some "https://upload.example/x" } })
     (AxiosOutcome.ok { status := 200, msg := none,
                        result := some { id := some "abc123", name := "clip.mp4",
                                         url := "https://streamtape.com/v/abc123/clip.mp4",
                                         size := 10, content_type := "video/mp4",
                                         sha256 := "deadbeef" } })
     "Video uploaded successfully!"
     (mkUploadData { id := some "abc123", name := "clip.mp4",
                     url := "https://streamtape.com/v/abc123/clip.mp4",
                     size := 10, content_type := "video/mp4", sha256 := "deadbeef" })
     (by decide)⟩

/-- Claim C6: with identical provider responses (an accepted negotiation
envelope and an accepted transfer envelope), the stream, disk-buffered and
in-memory variants all answer 200 with the very same normalized success
payload `{success, message, data:{fileId, fileName, streamUrl, downloadUrl,
size, contentType, sha256}}` built from the provider envelope. -/
theorem variants_agree_on_success_payload (parts : List ReqPart) (bs : List Nat)
    (fd fm : MulterFile) (unlinkFails : Bool) (env : UlEnvelope) (url : String)
    (uenv : UpEnvelope) (r : UpResult)
    (hbs : (busboyParse parts).fileStream = some bs)
    (hurl : negotiatedUrl env = some url)
    (hr : acceptedResult uenv = some r) :
    (uploadStream parts (.ok env) (.ok uenv)).fst
      = { status := 200, body := .success "Video uploaded successfully!" (mkUploadData r) }
    ∧ (uploadMemory (some fm) (.ok env) (.ok uenv)).fst
      = { status := 200, body := .success "Video uploaded successfully!" (mkUploadData r) }
    ∧ (uploadDisk (some fd) (.ok env) (.ok uenv) unlinkFails).response
      = { status := 200, body := .success "Video uploaded successfully!" (mkUploadData r) } := by
  refine ⟨?_, ?_, ?_⟩
  · simp [uploadStream, hbs, uploadPipeline, axiosE, hurl, hr]
  · simp [uploadMemory, uploadPipeline, axiosE, hurl, hr]
  · cases hp : fd.path.isEmpty <;> cases unlinkFails <;>
      simp [uploadDisk, hp, uploadPipeline, axiosE, hurl, hr]

/-- Witness for C6 on one concrete upload accepted by the provider. -/
theorem variants_agree_on_success_payload_witness :
    (uploadStream [ReqPart.filePart "videoFile" (some "clip.mp4") [7]]
        (AxiosOutcome.ok { status := 200, msg := none,
                           result := some { url := some "https://upload.example/x" } })
        (AxiosOutcome.ok { status := 200, msg := none,
                           result := some { id := some "abc123", name := "clip.mp4",
                                            url := "https://streamtape.com/v/abc123/clip.mp4",
                                            size := 1, content_type := "video/mp4",
                                            sha256 := "deadbeef" } })).fst
      = { status := 200,
          body := .success "Video uploaded successfully!"
            (mkUploadData { id := some "abc123", name := "clip.mp4",
                            url := "https://streamtape.com/v/abc123/clip.mp4",
                            size := 1, content_type := "video/mp4", sha256 := "deadbeef" }) }
    ∧ (uploadMemory (some { path := "", originalname := "clip.mp4", content := [7] })
        (AxiosOutcome.ok { status := 200, msg := none,
                           result := some { url := some "https://upload.example/x" } })
        (AxiosOutcome.ok { status := 200, msg := none,
                           result := some { id := some "abc123", name := "clip.mp4",
                                            url := "https://streamtape.com/v/abc123/clip.mp4",
                                            size := 1, content_type := "video/mp4",
                                            sha256 := "deadbeef" } })).fst
      = { status := 200,
          body := .success "Video uploaded successfully!"
            (mkUploadData { id := some "abc123", name := "clip.mp4",
                            url := "https://streamtape.com/v/abc123/clip.mp4",
                            size := 1, content_type := "video/mp4", sha256 := "deadbeef" }) }
    ∧ (uploadDisk (some { path := "/tmp/videoFile-1.mp4", originalname := "clip.mp4", content := [7] })
        (AxiosOutcome.ok { status := 200, msg := none,
                           result := some { url := some "https://upload.example/x" } })
        (AxiosOutcome.ok { status := 200, msg := none,
                           result := some { id := some "abc123", name := "clip.mp4",
                                            url := "https://streamtape.com/v/abc123/clip.mp4",
                                            size := 1, content_type := "video/mp4",
                                            sha256 := "deadbeef" } }) false).response
      = { status := 200,
          body := .success "Video uploaded successfully!"
            (mkUploadData { id := some "abc123", name := "clip.mp4",
                            url := "https://streamtape.com/v/abc123/clip.mp4",
                            size := 1, content_type := "video/mp4", sha256 := "deadbeef" }) } :=
  variants_agree_on_success_payload [ReqPart.filePart "videoFile" (some "clip.mp4") [7]] [7]
    { path := "/tmp/videoFile-1.mp4", originalname := "clip.mp4", content := [7] }
    { path := "", originalname := "clip.mp4", content := [7] }
    false
    { status := 200, msg := none, result := some { url := some "https://upload.example/x" } }
    "https://upload.example/x"
    { status := 200, msg := none,
      result := some { id := some "abc123", name := "clip.mp4",
                       url := "https://streamtape.com/v/abc123/clip.mp4",
                       size := 1, content_type := "video/mp4", sha256 := "deadbeef" } }
    { id := some "abc123", name := "clip.mp4",
      url := "https://streamtape.com/v/abc123/clip.mp4",
      size := 1, content_type := "video/mp4", sha256 := "deadbeef" }
    (by decide) (by decide) (by decide)

/-- Claim C7: in the stream variant, a negotiation envelope rejected by the
guard (status ≠ 200 or missing result URL) with a non-empty provider `msg`
makes the request fail with a 500 envelope whose message carries that `msg`;
the same holds for a transfer envelope rejected by its guard (status ≠ 200 or
missing result id). -/
theorem provider_msg_surfaced (parts : List ReqPart) (bs : List Nat)
    (hbs : (busboyParse parts).fileStream = some bs) :
    (∀ (env : UlEnvelope) (tr : AxiosOutcome UpEnvelope) (m : String),
      negotiatedUrl env = none → env.msg = some m → m.isEmpty = false →
      (uploadStream parts (.ok env) tr).fst
        = { status := 500, body := .failure ("Failed to upload video: " ++ m) })
    ∧ (∀ (env : UlEnvelope) (url : String) (uenv : UpEnvelope) (m : String),
      negotiatedUrl env = some url → acceptedResult uenv = none →
      uenv.msg = some m → m.isEmpty = false →
      (uploadStream parts (.ok env) (.ok uenv)).fst
        = { status := 500, body := .failure ("Failed to upload video: " ++ m) }) := by
  constructor
  · intro env tr m hfail hmsg hne
    simp [uploadStream, hbs, uploadPipeline, axiosE, hfail, catchStream, plainError,
          jsOrS, hmsg, hne]
  · intro env url uenv m hok hfail hmsg hne
    simp [uploadStream, hbs, uploadPipeline, axiosE, hok, hfail, catchStream, plainError,
          jsOrS, hmsg, hne]

/-- Witness for C7: the provider rejects the negotiation with msg
`"invalid login"` and, in a second request, rejects the transfer with msg
`"upload quota exceeded"`. -/
theorem provider_msg_surfaced_witness :
    (uploadStream [ReqPart.filePart "videoFile" (some "clip.mp4") [1]]
        (AxiosOutcome.ok { status := 403, msg := some "invalid login", result := none })
        AxiosOutcome.timeout).fst
      = { status := 500, body := .failure ("Failed to upload video: " ++ "invalid login") }
    ∧ (uploadStream [ReqPart.filePart "videoFile" (some "clip.mp4") [1]]
        (AxiosOutcome.ok { status := 200, msg := none,
                           result := some { url := some "https://upload.example/x" } })
        (AxiosOutcome.ok { status := 509, msg := some "upload quota exceeded",
                           result := none })).fst
      = { status := 500, body := .failure ("Failed to upload video: " ++ "upload quota exceeded") } := by
  have h := provider_msg_surfaced [ReqPart.filePart "videoFile" (some "clip.mp4") [1]] [1] (by decide)
  exact ⟨h.1 { status := 403, msg := some "invalid login", result := none }
           AxiosOutcome.timeout "invalid login" (by decide) rfl (by decide),
         h.2 { status := 200, msg := none, result := some { url := some "https://upload.example/x" } }
           "https://upload.example/x"
           { status := 509, msg := some "upload quota exceeded", result := none }
           "upload quota exceeded" (by decide) (by decide) rfl (by decide)⟩

/-- The multer middleware only depends on the `videoFile` file parts as long
as every file part of the body is under `videoFile`: plain form fields are
consumed without effect. -/
theorem multerSingleAux_filter (tmpPath : String) (l : List ReqPart) (acc : Option MulterFile)
    (h : ∀ p ∈ l, isFilePart p = false ∨ isVideoFilePart p = true) :
    multerSingleAux "videoFile" tmpPath acc (l.filter isVideoFilePart)
      = multerSingleAux "videoFile" tmpPath acc l := by
  induction l generalizing acc with
  | nil => rfl
  | cons p l ih =>
      have hl : ∀ q ∈ l, isFilePart q = false ∨ isVideoFilePart q = true :=
        fun q hq => h q (List.mem_cons_of_mem p hq)
      cases p with
      | fieldPart fn v =>
          simp only [List.filter_cons, isVideoFilePart, if_false, Bool.false_eq_true,
            reduceIte, multerSingleAux]
          exact ih acc hl
      | filePart fn fname c =>
          have hp := h _ (List.mem_cons_self _ l)
          have hv : (fn == "videoFile") = true := by
            rcases hp with hp | hp
            · simp [isFilePart] at hp
            · simpa [isVideoFilePart] using hp
          simp only [List.filter_cons, isVideoFilePart, hv, reduceIte, multerSingleAux]
          cases acc with
          | some f => rfl
          | none => exact ih _ hl

/-- Counterexample to claim C8 as stated: in the disk-buffered variant a file
part under a field name other than `videoFile` is not drained — the multer
middleware aborts the request with an unexpected-field error, so the outcome
differs from the same request with only the `videoFile` part (which succeeds
end to end). -/
theorem extra_file_part_rejected_cex :
    uploadDiskEndpoint "/tmp/videoFile-1.mp4"
        [ReqPart.filePart "videoFile" (some "a.mp4") [1, 2],
         ReqPart.filePart "extra" (some "b.bin") [3]]
        (AxiosOutcome.ok { status := 200, msg := none,
                           result := some { url := some "https://upload.example/x" } })
        (AxiosOutcome.ok { status := 200, msg := none,
                           result := some { id := some "abc123", name := "a.mp4",
                                            url := "https://streamtape.com/v/abc123/a.mp4",
                                            size := 2, content_type := "video/mp4",
                                            sha256 := "d" } }) false
      = Except.error (MulterError.unexpectedField "extra")
    ∧ uploadDiskEndpoint "/tmp/videoFile-1.mp4"
        [ReqPart.filePart "videoFile" (some "a.mp4") [1, 2]]
        (AxiosOutcome.ok { status := 200, msg := none,
                           result := some { url := some "https://upload.example/x" } })
        (AxiosOutcome.ok { status := 200, msg := none,
                           result := some { id := some "abc123", name := "a.mp4",
                                            url := "https://streamtape.com/v/abc123/a.mp4",
                                            size := 2, content_type := "video/mp4",
                                            sha256 := "d" } }) false
      = Except.ok
          { response :=
              { status := 200,
                body := .success "Video uploaded successfully!"
                  { fileId := "abc123", fileName := "a.mp4",
                    streamUrl := "https://streamtape.com/e/abc123",
                    downloadUrl := "https://streamtape.com/v/abc123/a.mp4",
                    size := 2, contentType := "video/mp4", sha256 := "d" } }
          , calls := [UpstreamCall.fileUl, UpstreamCall.uploadPost "https://upload.example/x"]
          , unlinkAttempted := true, tempExistsAfter := false
          , logs := ["Temporary file deleted: " ++ "/tmp/videoFile-1.mp4"] } :=
  ⟨rfl, rfl⟩

/-- Claim C8 (amended): the busboy variants drain and discard every part
other than the `videoFile` file parts, with the same outcome as the request
reduced to its `videoFile` parts; the multer variants do the same for plain
form fields, but a file part under another field name is rejected by the
middleware instead of being drained. -/
theorem drain_discipline_amended (parts : List ReqPart) (tmpPath : String)
    (neg : AxiosOutcome UlEnvelope) (tr : AxiosOutcome UpEnvelope) (unlinkFails : Bool) :
    uploadStream parts neg tr = uploadStream (parts.filter isVideoFilePart) neg tr
    ∧ uploadLegacyStream parts neg tr
      = uploadLegacyStream (parts.filter isVideoFilePart) neg tr
    ∧ ((∀ p ∈ parts, isFilePart p = false ∨ isVideoFilePart p = true) →
        uploadDiskEndpoint tmpPath parts neg tr unlinkFails
          = uploadDiskEndpoint tmpPath (parts.filter isVideoFilePart) neg tr unlinkFails
        ∧ uploadMemoryEndpoint parts neg tr
          = uploadMemoryEndpoint (parts.filter isVideoFilePart) neg tr) := by
  have hb : busboyParse (parts.filter isVideoFilePart) = busboyParse parts :=
    foldl_busboyStep_filter parts _
  refine ⟨?_, ?_, ?_⟩
  · simp only [uploadStream, hb]
  · simp only [uploadLegacyStream, hb]
  · intro h
    have h1 := multerSingleAux_filter tmpPath parts none h
    have h2 := multerSingleAux_filter "" parts none h
    constructor
    · simp only [uploadDiskEndpoint, multerSingle, h1]
    · simp only [uploadMemoryEndpoint, multerSingle, h2]

/-- Witness for the amended C8 on a body with two form fields around the
`videoFile` part. -/
theorem drain_discipline_amended_witness :
    uploadStream
        [ReqPart.fieldPart "title" "t", ReqPart.filePart "videoFile" (some "a.mp4") [1],
         ReqPart.fieldPart "tag" "x"]
        (AxiosOutcome.ok { status := 200, msg := none,
                           result := some { url := some "https://upload.example/x" } })
        AxiosOutcome.timeout
      = uploadStream
          ([ReqPart.fieldPart "title" "t", ReqPart.filePart "videoFile" (some "a.mp4") [1],
            ReqPart.fieldPart "tag" "x"].filter isVideoFilePart)
          (AxiosOutcome.ok { status := 200, msg := none,
                             result := some { url := some "https://upload.example/x" } })
          AxiosOutcome.timeout
    ∧ uploadLegacyStream
        [ReqPart.fieldPart "title" "t", ReqPart.filePart "videoFile" (some "a.mp4") [1],
         ReqPart.fieldPart "tag" "x"]
        (AxiosOutcome.ok { status := 200, msg := none,
                           result := some { url := some "https://upload.example/x" } })
        AxiosOutcome.timeout
      = uploadLegacyStream
          ([ReqPart.fieldPart "title" "t", ReqPart.filePart "videoFile" (some "a.mp4") [1],
            ReqPart.fieldPart "tag" "x"].filter isVideoFilePart)
          (AxiosOutcome.ok { status := 200, msg := none,
                             result := some { url := some "https://upload.example/x" } })
          AxiosOutcome.timeout
    ∧ (uploadDiskEndpoint "/tmp/videoFile-1.mp4"
          [ReqPart.fieldPart "title" "t", ReqPart.filePart "videoFile" (some "a.mp4") [1],
           ReqPart.fieldPart "tag" "x"]
          (AxiosOutcome.ok { status := 200, msg := none,
                             result := some { url := some "https://upload.example/x" } })
          AxiosOutcome.timeout false
        = uploadDiskEndpoint "/tmp/videoFile-1.mp4"
            ([ReqPart.fieldPart "title" "t", ReqPart.filePart "videoFile" (some "a.mp4") [1],
              ReqPart.fieldPart "tag" "x"].filter isVideoFilePart)
            (AxiosOutcome.ok { status := 200, msg := none,
                               result := some { url := some "https://upload.example/x" } })
            AxiosOutcome.timeout false
      ∧ uploadMemoryEndpoint
          [ReqPart.fieldPart "title" "t", ReqPart.filePart "videoFile" (some "a.mp4") [1],
           ReqPart.fieldPart "tag" "x"]
          (AxiosOutcome.ok { status := 200, msg := none,
                             result := some { url := some "https://upload.example/x" } })
          AxiosOutcome.timeout
        = uploadMemoryEndpoint
            ([ReqPart.fieldPart "title" "t", ReqPart.filePart "videoFile" (some "a.mp4") [1],
              ReqPart.fieldPart "tag" "x"].filter isVideoFilePart)
            (AxiosOutcome.ok { status := 200, msg := none,
                               result := some { url := some "https://upload.example/x" } })
            AxiosOutcome.timeout) := by
  have h := drain_discipline_amended
    [ReqPart.fieldPart "title" "t", ReqPart.filePart "videoFile" (some "a.mp4") [1],
     ReqPart.fieldPart "tag" "x"]
    "/tmp/videoFile-1.mp4"
    (AxiosOutcome.ok { status := 200, msg := none,
                       result := some { url := some "https://upload.example/x" } })
    AxiosOutcome.timeout false
  exact ⟨h.1, h.2.1, h.2.2 (by decide)⟩

/-- Claim C9: a download-link request with a missing (or empty) `ticket`
query parameter answers 400 with `success:false` and performs no provider
call. -/
theorem missing_ticket_rejected_locally (linkId : String) (ticket : Option String)
    (out : AxiosOutcome DlEnvelope) (h : strTruthy ticket = false) :
    downloadLink linkId ticket out
      = ({ status := 400, body := .failure "Download ticket is required." }, []) := by
  simp [downloadLink, h]

/-- Witness for C9 with no `ticket` parameter at all. -/
theorem missing_ticket_rejected_locally_witness :
    downloadLink "abc123" none
        (AxiosOutcome.ok { status := 200, msg := none,
                           result := some { url := some "https://dl.example/y", name := "clip.mp4" } })
      = ({ status := 400, body := .failure "Download ticket is required." }, []) :=
  missing_ticket_rejected_locally "abc123" none
    (AxiosOutcome.ok { status := 200, msg := none,
                       result := some { url := some "https://dl.example/y", name := "clip.mp4" } })
    (by decide)

/-- Claim C10: when the provider answers `GET /api/videos` with a status-200
envelope holding a files list, the response is 200 with exactly the files
whose `linkid` is truthy and whose `convert` equals `"converted"`; every
other file is omitted. -/
theorem videos_filter_converted (env : ListEnvelope) (r : ListResult)
    (files : List FolderFile)
    (hres : env.result = some r) (hfiles : r.files = some files)
    (hst : env.status = 200) :
    listVideos (.ok env) = { status := 200, body := .success (files.filter keepVideo) }
    ∧ ∀ f, f ∈ files.filter keepVideo ↔
        f ∈ files ∧ strTruthy f.linkid = true ∧ f.convert = "converted" := by
  constructor
  · simp [listVideos, hres, hfiles, hst]
  · intro f
    simp [List.mem_filter, keepVideo, Bool.and_eq_true, and_assoc]

/-- Witness for C10 on a three-file folder where one file is still converting
and one has no link id. -/
theorem videos_filter_converted_witness :
    listVideos (AxiosOutcome.ok
        { status := 200, msg := none,
          result := some { files := some [
            { name := "a.mp4", linkid := some "l1", convert := "converted", size := 5 },
            { name := "b.mp4", linkid := some "l2", convert := "converting", size := 6 },
            { name := "c.mp4", linkid := none, convert := "converted", size := 7 } ] } })
      = { status := 200,
          body := .success [
            { name := "a.mp4", linkid := some "l1", convert := "converted", size := 5 } ] }
    ∧ ∀ f, f ∈ List.filter keepVideo [
          ({ name := "a.mp4", linkid := some "l1", convert := "converted", size := 5 } : FolderFile),
          { name := "b.mp4", linkid := some "l2", convert := "converting", size := 6 },
          { name := "c.mp4", linkid := none, convert := "converted", size := 7 } ] ↔
        f ∈ [
          ({ name := "a.mp4", linkid := some "l1", convert := "converted", size := 5 } : FolderFile),
          { name := "b.mp4", linkid := some "l2", convert := "converting", size := 6 },
          { name := "c.mp4", linkid := none, convert := "converted", size := 7 } ]
          ∧ strTruthy f.linkid = true ∧ f.convert = "converted" := by
  have h := videos_filter_converted
    { status := 200, msg := none,
      result := some { files := some [
        { name := "a.mp4", linkid := some "l1", convert := "converted", size := 5 },
        { name := "b.mp4", linkid := some "l2", convert := "converting", size := 6 },
        { name := "c.mp4", linkid := none, convert := "converted", size := 7 } ] } }
    { files := some [
        { name := "a.mp4", linkid := some "l1", convert := "converted", size := 5 },
        { name := "b.mp4", linkid := some "l2", convert := "converting", size := 6 },
        { name := "c.mp4", linkid := none, convert := "converted", size := 7 } ] }
    [ { name := "a.mp4", linkid := some "l1", convert := "converted", size := 5 },
      { name := "b.mp4", linkid := some "l2", convert := "converting", size := 6 },
      { name := "c.mp4", linkid := none, convert := "converted", size := 7 } ]
    rfl rfl rfl
  exact ⟨by rw [h.1]; decide, h.2⟩
